import Mathlib

/-!
Verification of the stunnel client transport and transfer orchestration core.

The definitions below are a shallow embedding of the Go sources
`state_transfer/transport/stunnel/client.go` and
`state_transfer/transfer/transfer.go`.  Machine strings are Lean `String`s,
byte blobs are lists of `UInt8`, Go `int32` values are Lean `Int`s, and the
Kubernetes CRUD client is modelled as an oracle of per-object responses
together with an explicit trace of the calls a function issues.
-/

/-- Raw bytes of a certificate or a key (Go `[]byte`). -/
abbrev Bytes := List UInt8

/-- Go struct `TransportOptions` (fields used by the stunnel client side). -/
structure TransportOptions where
  caVerifyLevel : String
  proxyURL : String
  proxyUsername : String
  proxyPassword : String
  noVerifyCA : Bool
deriving DecidableEq

/-- The read interface of an endpoint: Hostname, Port, ExposedPort, Labels. -/
structure Endpoint where
  hostname : String
  port : Int
  exposedPort : Int
  labels : List (String × String)
deriving DecidableEq

/-- Go `strconv.FormatBool`. -/
def strconvFormatBool (b : Bool) : String := if b then "true" else "false"

/-- Go `strconv.Itoa` on an int32-valued expression, modelled on `Int`. -/
def strconvItoa (n : Int) : String := Int.repr n

/-- The key/value context handed to the stunnel client template
(`connections` map in `createClientConfig`). -/
structure StunnelConnections where
  stunnelPort : String
  hostname : String
  port : String
  proxyHost : String
  proxyUsername : String
  proxyPassword : String
  caVerifyLevel : String
  noVerifyCA : String
deriving DecidableEq

/-- Rendering of `stunnelClientConfTemplate` by Go `text/template.Execute`.
Each action of the template uses a left trim marker, so the newline that
precedes an action in the template text is consumed; the conditional
sections therefore contribute strings that begin with a newline and carry
no trailing newline, and the whole render ends with the template's final
newline.  The branch conditions mirror the template's actions: the proxy
section is chosen when `proxyHost` is a non-empty string, the credential
lines when the respective value is non-empty, and the verify line when the
`noVerifyCA` string differs from the literal string false. -/
def executeClientTemplate (c : StunnelConnections) : String :=
  "\n pid =" ++ "\n sslVersion = TLSv1.2" ++ "\n client = yes" ++ "\n syslog = no" ++
    "\n output = /dev/stdout" ++ "\n [rsync]" ++ "\n debug = 7" ++
    "\n accept = " ++ c.stunnelPort ++
    "\n cert = /etc/stunnel/certs/tls.crt" ++ "\n key = /etc/stunnel/certs/tls.key" ++
  (if c.proxyHost ≠ "" then
      "\n protocol = connect" ++ "\n connect = " ++ c.proxyHost ++
      "\n protocolHost = " ++ c.hostname ++ ":" ++ c.port ++
      (if c.proxyUsername ≠ "" then "\n protocolUsername = " ++ c.proxyUsername else "") ++
      (if c.proxyPassword ≠ "" then "\n protocolPassword = " ++ c.proxyPassword else "")
    else "\n connect = " ++ c.hostname ++ ":" ++ c.port) ++
  (if c.noVerifyCA ≠ "false" then "\n verify = " ++ c.caVerifyLevel else "") ++
  "\n"

/-- The template context built by `createClientConfig` (lines 82-99 of
client.go): the accept port is the endpoint port, the connect target is the
endpoint hostname and exposed port, proxy data comes from the options, the
CA verify level defaults to the string 2 when unset, and the noVerifyCA
flag is formatted as a boolean string. -/
def clientConnections (opts : TransportOptions) (e : Endpoint) : StunnelConnections :=
  { stunnelPort := strconvItoa e.port
    hostname := e.hostname
    port := strconvItoa e.exposedPort
    proxyHost := opts.proxyURL
    proxyUsername := opts.proxyUsername
    proxyPassword := opts.proxyPassword
    caVerifyLevel := if opts.caVerifyLevel = "" then "2" else opts.caVerifyLevel
    noVerifyCA := strconvFormatBool opts.noVerifyCA }

/-- The stunnel.conf text rendered by `createClientConfig` for the given
options and endpoint. -/
def renderClientConf (opts : TransportOptions) (e : Endpoint) : String :=
  executeClientTemplate (clientConnections opts e)

/-- Split a character list at newline characters; mirrors the line
structure of the rendered configuration text. -/
def splitNl : List Char → List (List Char)
  | [] => [[]]
  | c :: cs =>
    if c = '\n' then [] :: splitNl cs
    else
      match splitNl cs with
      | [] => [[c]]
      | h :: t => (c :: h) :: t

/-- The lines of a string, as strings. -/
def linesOf (s : String) : List String := (splitNl s.data).map List.asString

theorem splitNl_ne_nil (l : List Char) : splitNl l ≠ [] := by
  cases l with
  | nil => simp [splitNl]
  | cons c cs =>
    simp only [splitNl]
    split
    · simp
    · match hs : splitNl cs with
      | [] => simp
      | h :: t => simp

theorem splitNl_append (a : List Char) {b hd : List Char} {tl : List (List Char)}
    (h : '\n' ∉ a) (hb : splitNl b = hd :: tl) :
    splitNl (a ++ b) = (a ++ hd) :: tl := by
  induction a with
  | nil => simpa using hb
  | cons c cs ih =>
    have hc : c ≠ '\n' := by
      intro hc
      exact h (hc ▸ List.mem_cons_self c cs)
    have hcs : '\n' ∉ cs := fun hm => h (List.mem_cons_of_mem c hm)
    have ihr := ih hcs
    simp only [List.cons_append, splitNl, if_neg hc, List.append_eq, ihr]

/-- Concatenate line contents into the raw text shape produced by the
template: a newline before every line content and one final newline. -/
def chunksData (ls : List (List Char)) : List Char :=
  ls.foldr (fun l acc => '\n' :: (l ++ acc)) ['\n']

theorem splitNl_chunksData (ls : List (List Char)) (h : ∀ l ∈ ls, '\n' ∉ l) :
    splitNl (chunksData ls) = [] :: (ls ++ [[]]) := by
  induction ls with
  | nil => simp [chunksData, splitNl]
  | cons l ls ih =>
    have hl : '\n' ∉ l := h l (List.mem_cons_self l ls)
    have hls : ∀ x ∈ ls, '\n' ∉ x := fun x hx => h x (List.mem_cons_of_mem l hx)
    have ihr := ih hls
    have step : splitNl (chunksData (l :: ls)) = [] :: splitNl (l ++ chunksData ls) := by
      simp [chunksData, splitNl]
    rw [step, splitNl_append l hl ihr]
    simp

/-- The line contents of the rendered client configuration, in render
order: the fixed header lines, then the proxy or direct connect section,
then the optional verify line. -/
def clientLines (c : StunnelConnections) : List String :=
  [" pid =", " sslVersion = TLSv1.2", " client = yes", " syslog = no",
   " output = /dev/stdout", " [rsync]", " debug = 7",
   " accept = " ++ c.stunnelPort,
   " cert = /etc/stunnel/certs/tls.crt", " key = /etc/stunnel/certs/tls.key"]
  ++ (if c.proxyHost ≠ "" then
        [" protocol = connect", " connect = " ++ c.proxyHost,
         " protocolHost = " ++ c.hostname ++ ":" ++ c.port]
        ++ (if c.proxyUsername ≠ "" then [" protocolUsername = " ++ c.proxyUsername] else [])
        ++ (if c.proxyPassword ≠ "" then [" protocolPassword = " ++ c.proxyPassword] else [])
      else [" connect = " ++ c.hostname ++ ":" ++ c.port])
  ++ (if c.noVerifyCA ≠ "false" then [" verify = " ++ c.caVerifyLevel] else [])

set_option maxRecDepth 8000 in
theorem executeClientTemplate_data (c : StunnelConnections) :
    (executeClientTemplate c).data = chunksData ((clientLines c).map String.data) := by
  unfold executeClientTemplate clientLines
  repeat' split
  all_goals
    simp only [chunksData, List.map_cons, List.map_nil, List.map_append, List.foldr_cons,
      List.foldr_nil, List.foldr_append, String.data_append, List.append_assoc,
      List.cons_append, List.nil_append]

theorem asString_data (s : String) : s.data.asString = s := rfl

theorem linesOf_executeClientTemplate (c : StunnelConnections)
    (h : ∀ l ∈ clientLines c, '\n' ∉ l.data) :
    linesOf (executeClientTemplate c) = "" :: (clientLines c ++ [""]) := by
  unfold linesOf
  rw [executeClientTemplate_data c,
    splitNl_chunksData ((clientLines c).map String.data)
      (by
        intro l hl
        obtain ⟨s, hs, rfl⟩ := List.mem_map.mp hl
        exact h s hs)]
  have hmap : List.map List.asString (List.map String.data (clientLines c)) = clientLines c := by
    rw [List.map_map]
    have hfun : (List.asString ∘ String.data) = id := funext asString_data
    rw [hfun, List.map_id]
  have h0 : ([] : List Char).asString = "" := rfl
  simp [hmap, h0]

/-- The string contains no newline character. -/
def noNl (s : String) : Prop := '\n' ∉ s.data

instance noNlDecidable (s : String) : Decidable (noNl s) := by
  unfold noNl
  infer_instance

theorem noNl_append {a b : String} (ha : noNl a) (hb : noNl b) : noNl (a ++ b) := by
  intro hmem
  rcases List.mem_append.mp (by simpa [String.data_append] using hmem) with h | h
  · exact ha h
  · exact hb h

theorem digitChar_ne_nl (n : Nat) : Nat.digitChar n ≠ '\n' := by
  match n with
  | 0 | 1 | 2 | 3 | 4 | 5 | 6 | 7 | 8 | 9 | 10 | 11 | 12 | 13 | 14 | 15 => decide
  | (m + 16) =>
    have h : Nat.digitChar (m + 16) = '*' := rfl
    rw [h]
    decide

theorem toDigitsCore_ne_nl (b f : Nat) :
    ∀ (n : Nat) (acc : List Char), (∀ c ∈ acc, c ≠ '\n') →
      ∀ c ∈ Nat.toDigitsCore b f n acc, c ≠ '\n' := by
  induction f with
  | zero =>
    intro n acc hacc c hc
    exact hacc c hc
  | succ f ih =>
    intro n acc hacc c hc
    simp only [Nat.toDigitsCore] at hc
    have hcons : ∀ x ∈ Nat.digitChar (n % b) :: acc, x ≠ '\n' := by
      intro x hx
      rcases List.mem_cons.mp hx with rfl | hx
      · exact digitChar_ne_nl _
      · exact hacc x hx
    by_cases hz : n / b = 0
    · rw [if_pos hz] at hc
      exact hcons c hc
    · rw [if_neg hz] at hc
      exact ih (n / b) (Nat.digitChar (n % b) :: acc) hcons c hc

theorem noNl_natRepr (n : Nat) : noNl (Nat.repr n) := by
  intro hmem
  exact toDigitsCore_ne_nl 10 (n + 1) n [] (by simp) '\n' hmem rfl

theorem noNl_itoa (n : Int) : noNl (strconvItoa n) := by
  cases n with
  | ofNat m => exact noNl_natRepr m
  | negSucc m =>
    intro hmem
    have : ('\n' : Char) ∈ ("-" : String).data ++ (Nat.repr (m + 1)).data := by
      simpa [strconvItoa, Int.repr, String.data_append] using hmem
    rcases List.mem_append.mp this with h | h
    · simp at h
    · exact noNl_natRepr (m + 1) h

/-- A key/path entry of a secret volume source (corev1.KeyToPath). -/
structure KeyToPath where
  keyName : String
  path : String
deriving DecidableEq

/-- A container volume mount (corev1.VolumeMount); an unset SubPath is the
empty string, Go's zero value. -/
structure VolumeMount where
  name : String
  mountPath : String
  subPath : String
deriving DecidableEq

/-- A container port (corev1.ContainerPort). -/
structure ContainerPort where
  name : String
  protocol : String
  containerPort : Int
deriving DecidableEq

/-- A container descriptor (the corev1.Container fields set by
`setClientContainers`). -/
structure Container where
  name : String
  image : String
  command : List String
  ports : List ContainerPort
  volumeMounts : List VolumeMount
deriving DecidableEq

/-- A config-map-backed volume source (corev1.ConfigMapVolumeSource). -/
structure ConfigMapVolumeSource where
  name : String
deriving DecidableEq

/-- A secret-backed volume source (corev1.SecretVolumeSource). -/
structure SecretVolumeSource where
  secretName : String
  items : List KeyToPath
deriving DecidableEq

/-- A volume source; at most one of the backing kinds is set
(corev1.VolumeSource with its pointer fields). -/
structure VolumeSource where
  configMap : Option ConfigMapVolumeSource
  secret : Option SecretVolumeSource
deriving DecidableEq

/-- A volume descriptor (corev1.Volume). -/
structure Volume where
  name : String
  volumeSource : VolumeSource
deriving DecidableEq

/-- A namespaced config object (corev1.ConfigMap: the metadata fields set
by `createClientConfig` plus its string data). -/
structure ConfigMap where
  ns : String
  name : String
  labels : List (String × String)
  data : List (String × String)
deriving DecidableEq

/-- A namespaced secret object (corev1.Secret: the metadata fields set by
`createClientSecret` plus its byte data). -/
structure Secret where
  ns : String
  name : String
  labels : List (String × String)
  data : List (String × Bytes)
deriving DecidableEq

/-- Model of a `StunnelTransport`.  The certificate and key bytes, the
source namespace of the namespace pair and the options are fields of the
struct in the repository; `stunnelClientImage` stands for the value of
`getStunnelClientImage` (Modelled from the spec: an externally supplied
image reference).  The derived container and volume specs are assigned by
`CreateClient`. -/
structure StunnelTransport where
  crt : Bytes
  key : Bytes
  sourceNamespace : String
  options : TransportOptions
  stunnelClientImage : String
  clientContainers : List Container
  clientVolumes : List Volume
deriving DecidableEq

/-- Modelled from the spec: the default name of the client config object
(`defaultStunnelClientConfig`, declared outside the given sources).  The
claims depend only on the naming scheme, not on this value. -/
def defaultStunnelClientConfig : String := "crane2-stunnel-client-config"

/-- Modelled from the spec: the default name of the client secret object
(`defaultStunnelClientSecret`, declared outside the given sources). -/
def defaultStunnelClientSecret : String := "crane2-stunnel-client-secret"

/-- Modelled from the spec: the fixed name of the stunnel container
(`StunnelContainer`, declared outside the given sources). -/
def stunnelContainerName : String := "stunnel"

/-- Modelled from the spec: object names are derived from the name prefix
and a role default name as prefix, dash, default name (`withPrefix`,
declared outside the given sources; spec section 6). -/
def withPfx (pfx name : String) : String := pfx ++ "-" ++ name

/-- A cluster API error, distinguishable as already-exists or not-found
(k8serrors), with an opaque payload. -/
inductive K8sErr where
  | alreadyExists (msg : String)
  | notFound (msg : String)
  | other (msg : String)
deriving DecidableEq

/-- k8serrors.IsAlreadyExists. -/
def isAlreadyExists : K8sErr → Bool
  | .alreadyExists _ => true
  | _ => false

/-- An object passed to the cluster client. -/
inductive ClusterObj where
  | configMap (cm : ConfigMap)
  | secret (s : Secret)
deriving DecidableEq

/-- A call issued to the cluster client. -/
inductive ClusterCall where
  | create (o : ClusterObj)
  | update (o : ClusterObj)
deriving DecidableEq

/-- The cluster CRUD client, modelled as an oracle: for each object a
Create or Update may succeed (none) or fail with an error.  The functions
below additionally return the trace of calls they issue. -/
structure ClusterClient where
  createResp : ClusterObj → Option K8sErr
  updateResp : ClusterObj → Option K8sErr

/-- The config object built by `createClientConfig` (lines 112-121 of
client.go): placed in the source namespace, named with the prefixed
default client config name, labelled with the endpoint labels, its sole
data key stunnel.conf holding the rendered template text. -/
def stunnelConfigMap (s : StunnelTransport) (pfx : String) (e : Endpoint) : ConfigMap :=
  { ns := s.sourceNamespace
    name := withPfx pfx defaultStunnelClientConfig
    labels := e.labels
    data := [("stunnel.conf", renderClientConf s.options e)] }

/-- `createClientConfig` (lines 81-132 of client.go): render the template,
attempt Create; a Create failure that is not already-exists is returned;
an already-exists failure triggers an Update whose error, if any, is
returned; otherwise the function returns nil.  The template is a fixed
valid literal, so parse and execute cannot fail and are modelled as the
pure rendering.  The second component is the trace of issued calls. -/
def createClientConfig (c : ClusterClient) (s : StunnelTransport) (pfx : String)
    (e : Endpoint) : Option K8sErr × List ClusterCall :=
  let cm := stunnelConfigMap s pfx e
  match c.createResp (.configMap cm) with
  | some err =>
    if isAlreadyExists err then
      match c.updateResp (.configMap cm) with
      | some uerr => (some uerr, [.create (.configMap cm), .update (.configMap cm)])
      | none => (none, [.create (.configMap cm), .update (.configMap cm)])
    else (some err, [.create (.configMap cm)])
  | none => (none, [.create (.configMap cm)])

/-- The secret built by `createClientSecret` (lines 144-154 of client.go):
placed in the source namespace, named with the prefixed default client
secret name, holding the certificate bytes under tls.crt and the key bytes
under tls.key. -/
def stunnelSecret (s : StunnelTransport) (pfx : String) (e : Endpoint) : Secret :=
  { ns := s.sourceNamespace
    name := withPfx pfx defaultStunnelClientSecret
    labels := e.labels
    data := [("tls.crt", s.crt), ("tls.key", s.key)] }

/-- `createClientSecret` (lines 143-161 of client.go): attempt Create; a
failure that is not already-exists is returned, any other outcome
(success or already-exists) yields nil; no Update is ever issued. -/
def createClientSecret (c : ClusterClient) (s : StunnelTransport) (pfx : String)
    (e : Endpoint) : Option K8sErr × List ClusterCall :=
  let sec := stunnelSecret s pfx e
  match c.createResp (.secret sec) with
  | some err =>
    if isAlreadyExists err then (none, [.create (.secret sec)])
    else (some err, [.create (.secret sec)])
  | none => (none, [.create (.secret sec)])

/-- The single client container derived by `setClientContainers`
(lines 163-192 of client.go). -/
def clientContainer (s : StunnelTransport) (e : Endpoint) : Container :=
  { name := stunnelContainerName
    image := s.stunnelClientImage
    command := ["/bin/stunnel", "/etc/stunnel/stunnel.conf"]
    ports := [{ name := "stunnel", protocol := "TCP", containerPort := e.port }]
    volumeMounts := [
      { name := defaultStunnelClientConfig
        mountPath := "/etc/stunnel/stunnel.conf"
        subPath := "stunnel.conf" },
      { name := defaultStunnelClientSecret
        mountPath := "/etc/stunnel/certs"
        subPath := "" }] }

/-- `setClientContainers`: assigns the derived container list to the
transport. -/
def setClientContainers (s : StunnelTransport) (e : Endpoint) : StunnelTransport :=
  { s with clientContainers := [clientContainer s e] }

/-- The two volumes derived by `createClientVolumes` (lines 194-225 of
client.go): one backed by the prefixed config object, one backed by the
prefixed secret restricted to the tls.crt and tls.key entries. -/
def clientVolumeSpecs (pfx : String) : List Volume :=
  [ { name := defaultStunnelClientConfig
      volumeSource :=
        { configMap := some { name := withPfx pfx defaultStunnelClientConfig }
          secret := none } },
    { name := defaultStunnelClientSecret
      volumeSource :=
        { configMap := none
          secret := some
            { secretName := withPfx pfx defaultStunnelClientSecret
              items := [
                { keyName := "tls.crt", path := "tls.crt" },
                { keyName := "tls.key", path := "tls.key" }] } } } ]

/-- `createClientVolumes`: assigns the derived volume list to the
transport. -/
def createClientVolumes (s : StunnelTransport) (pfx : String) : StunnelTransport :=
  { s with clientVolumes := clientVolumeSpecs pfx }

/-- Model of errorsutil.NewAggregate: nil entries are discarded; with no
remaining error the aggregate is nil, otherwise it carries every error
that occurred, in order. -/
def newAggregate (errs : List (Option K8sErr)) : Option (List K8sErr) :=
  let l := errs.filterMap id
  if l.isEmpty then none else some l

/-- `createClientResources` (lines 55-70 of client.go): run the config
step, run the secret step, collect both errors, unconditionally derive the
container and volume specs, and return the aggregate of the collected
errors.  The result carries the updated transport, the aggregated error
and the concatenated call trace. -/
def createClientResources (c : ClusterClient) (s : StunnelTransport) (pfx : String)
    (e : Endpoint) : StunnelTransport × Option (List K8sErr) × List ClusterCall :=
  let cfg := createClientConfig c s pfx e
  let sec := createClientSecret c s pfx e
  let s1 := setClientContainers s e
  let s2 := createClientVolumes s1 pfx
  (s2, newAggregate [cfg.1, sec.1], cfg.2 ++ sec.2)

/-- `CreateClient` (lines 50-53 of client.go): delegates to
`createClientResources` and returns its error. -/
def CreateClient (c : ClusterClient) (s : StunnelTransport) (pfx : String)
    (e : Endpoint) : StunnelTransport × Option (List K8sErr) × List ClusterCall :=
  createClientResources c s pfx e

/-- The Transport capability consumed by the transfer entry points: only
Direct and Port are used by connection-address derivation. -/
structure Transport where
  direct : Bool
  port : Int
deriving DecidableEq

/-- The Transfer capability consumed by `ConnectionHostname` and
`ConnectionPort`: its transport and its endpoint. -/
structure Transfer where
  transport : Transport
  endpoint : Endpoint
deriving DecidableEq

/-- `ConnectionHostname` (lines 294-299 of transfer.go). -/
def ConnectionHostname (t : Transfer) : String :=
  if t.transport.direct then t.endpoint.hostname else "localhost"

/-- `ConnectionPort` (lines 301-306 of transfer.go). -/
def ConnectionPort (t : Transfer) : Int :=
  if t.transport.direct then t.endpoint.exposedPort else t.transport.port

/-- A container status reported by a pod (corev1.ContainerStatus). -/
structure ContainerStatus where
  name : String
  ready : Bool
deriving DecidableEq

/-- A pod: its namespaced name and reported container statuses. -/
structure Pod where
  ns : String
  name : String
  containerStatuses : List ContainerStatus
deriving DecidableEq

/-- The rendering of a client.ObjectKey in a format string: namespace,
slash, name. -/
def objectKeyString (ns name : String) : String := ns ++ ("/" ++ name)

/-- `areContainersReady` (lines 321-332 of transfer.go): exactly two
container statuses are required; the loop returns on the first not-ready
status; otherwise the pod is ready.  Errors are the fmt.Errorf message
strings. -/
def areContainersReady (p : Pod) : Bool × Option String :=
  if p.containerStatuses.length ≠ 2 then
    (false, some ("expected two container statuses found " ++
      (Nat.repr p.containerStatuses.length ++ (", for pod " ++ objectKeyString p.ns p.name))))
  else
    match p.containerStatuses.find? (fun cs => !cs.ready) with
    | some cs =>
      (false, some ("container " ++ (cs.name ++ (" in pod " ++
        (objectKeyString p.ns p.name ++ " is not ready")))))
    | none => (true, none)

/-- Whether `areContainersReady` reports the pod ready. -/
def podHealthy (p : Pod) : Bool := (areContainersReady p).1

/-- The loop of `AreFilteredPodsHealthy` (lines 345-357 of transfer.go)
over the listed pods, carrying the errors collected so far: each pod's
error, if any, is appended, and the first ready pod short-circuits with a
nil error; when the list is exhausted the collected errors are aggregated
(nil when none, the full list otherwise, mirroring NewAggregate on message
strings). -/
def checkPods : List Pod → List String → Bool × Option (List String)
  | [], errs => (false, if errs.isEmpty then none else some errs)
  | p :: rest, errs =>
    let r := areContainersReady p
    let errs2 := match r.2 with
      | some msg => errs ++ [msg]
      | none => errs
    if r.1 then (true, none) else checkPods rest errs2

/-- `AreFilteredPodsHealthy` after a successful List call returning the
given pods. -/
def AreFilteredPodsHealthy (pods : List Pod) : Bool × Option (List String) :=
  checkPods pods []

/-- Whether `pre` is a prefix of the string `s`, at the character level. -/
def strStarts (pre s : String) : Bool := pre.data.isPrefixOf s.data

theorem clientLines_noNl (c : StunnelConnections)
    (h1 : noNl c.stunnelPort) (h2 : noNl c.hostname) (h3 : noNl c.port)
    (h4 : noNl c.proxyHost) (h5 : noNl c.proxyUsername) (h6 : noNl c.proxyPassword)
    (h7 : noNl c.caVerifyLevel) :
    ∀ l ∈ clientLines c, '\n' ∉ l.data := by
  unfold clientLines
  repeat' split
  all_goals
    simp only [List.forall_mem_append, List.forall_mem_cons, List.forall_mem_nil,
      and_true, true_and]
  all_goals repeat' apply And.intro
  all_goals
    first
      | decide
      | exact noNl_append (by decide) h1
      | exact noNl_append (by decide) h4
      | exact noNl_append (by decide) h5
      | exact noNl_append (by decide) h6
      | exact noNl_append (by decide) h7
      | exact noNl_append (noNl_append (noNl_append (by decide) h2) (by decide)) h3

theorem linesOf_renderClientConf (opts : TransportOptions) (e : Endpoint)
    (hh : noNl e.hostname) (hu : noNl opts.proxyURL) (hn : noNl opts.proxyUsername)
    (hp : noNl opts.proxyPassword) (hc : noNl opts.caVerifyLevel) :
    linesOf (renderClientConf opts e) =
      "" :: (clientLines (clientConnections opts e) ++ [""]) := by
  apply linesOf_executeClientTemplate
  apply clientLines_noNl
  · exact noNl_itoa e.port
  · exact hh
  · exact noNl_itoa e.exposedPort
  · exact hu
  · exact hn
  · exact hp
  · show noNl (if opts.caVerifyLevel = "" then "2" else opts.caVerifyLevel)
    split
    · decide
    · exact hc

/-- C1: contrary to the claim, with CAVerifyLevel unset the rendered
client config contains no verify line when NoVerifyCA is false, and it
does contain the line verify = 2 when NoVerifyCA is true: the template
action tests the noVerifyCA string against the literal false with the
polarity inverted, so the verify directive appears exactly when NoVerifyCA
is true. -/
theorem stunnel_verify_line_polarity_inverted :
    (∀ l ∈ linesOf
        (renderClientConf
          { caVerifyLevel := "", proxyURL := "", proxyUsername := "", proxyPassword := "",
            noVerifyCA := false }
          { hostname := "h", port := 1, exposedPort := 2, labels := [] }),
      strStarts " verify" l = false) ∧
    " verify = 2" ∈ linesOf
        (renderClientConf
          { caVerifyLevel := "", proxyURL := "", proxyUsername := "", proxyPassword := "",
            noVerifyCA := true }
          { hostname := "h", port := 1, exposedPort := 2, labels := [] }) := by
  decide

/-- C5: for a non-empty ProxyURL the rendered client config contains the
protocol connect line, a connect line whose target is the ProxyURL (and no
other connect line), and the protocolHost line for the endpoint hostname
and exposed port; the protocolUsername and protocolPassword lines appear,
verbatim, exactly when the respective option value is non-empty.  For an
empty ProxyURL the direct connect line is rendered and no protocol
connect line appears.  All interpolated values are assumed newline-free. -/
theorem stunnel_client_proxy_rendering (opts : TransportOptions) (e : Endpoint)
    (hh : noNl e.hostname) (hu : noNl opts.proxyURL) (hn : noNl opts.proxyUsername)
    (hp : noNl opts.proxyPassword) (hc : noNl opts.caVerifyLevel) :
    (opts.proxyURL ≠ "" →
      " protocol = connect" ∈ linesOf (renderClientConf opts e) ∧
      (" connect = " ++ opts.proxyURL) ∈ linesOf (renderClientConf opts e) ∧
      (" protocolHost = " ++ e.hostname ++ ":" ++ strconvItoa e.exposedPort) ∈
        linesOf (renderClientConf opts e) ∧
      (∀ l ∈ linesOf (renderClientConf opts e),
        l ≠ " connect = " ++ opts.proxyURL → strStarts " connect = " l = false) ∧
      (opts.proxyUsername ≠ "" →
        (" protocolUsername = " ++ opts.proxyUsername) ∈ linesOf (renderClientConf opts e)) ∧
      (opts.proxyUsername = "" →
        ∀ l ∈ linesOf (renderClientConf opts e), strStarts " protocolUsername" l = false) ∧
      (opts.proxyPassword ≠ "" →
        (" protocolPassword = " ++ opts.proxyPassword) ∈ linesOf (renderClientConf opts e)) ∧
      (opts.proxyPassword = "" →
        ∀ l ∈ linesOf (renderClientConf opts e), strStarts " protocolPassword" l = false)) ∧
    (opts.proxyURL = "" →
      (" connect = " ++ e.hostname ++ ":" ++ strconvItoa e.exposedPort) ∈
        linesOf (renderClientConf opts e) ∧
      ∀ l ∈ linesOf (renderClientConf opts e), strStarts " protocol = connect" l = false) := by
  have hchar := linesOf_renderClientConf opts e hh hu hn hp hc
  rw [hchar]
  constructor
  · intro hpu
    refine ⟨?_, ?_, ?_, ?_, fun hu2 => ?_, fun hu2 => ?_, fun hp2 => ?_, fun hp2 => ?_⟩
    · simp [clientLines, clientConnections, hpu]
    · simp [clientLines, clientConnections, hpu]
    · simp [clientLines, clientConnections, hpu]
    · by_cases hu2 : opts.proxyUsername = "" <;> by_cases hp2 : opts.proxyPassword = "" <;>
        cases hb : opts.noVerifyCA <;>
          simp [clientLines, clientConnections, strconvFormatBool, hb, hpu, hu2, hp2] <;>
        repeat' apply And.intro
      all_goals
        first
          | rfl
          | (intro hne; exact absurd rfl hne)
          | (intro hne; exact hne.elim)
          | (intro _hne; rfl)
          | (intro _hne _hne2; rfl)
    · simp [clientLines, clientConnections, hpu, hu2]
    · by_cases hp2 : opts.proxyPassword = "" <;> cases hb : opts.noVerifyCA <;>
        simp [clientLines, clientConnections, strconvFormatBool, hb, hpu, hu2, hp2] <;>
      repeat' apply And.intro
      all_goals first | rfl | (intro _hne; rfl)
    · simp [clientLines, clientConnections, hpu, hp2]
    · by_cases hu2 : opts.proxyUsername = "" <;> cases hb : opts.noVerifyCA <;>
        simp [clientLines, clientConnections, strconvFormatBool, hb, hpu, hu2, hp2] <;>
      repeat' apply And.intro
      all_goals first | rfl | (intro _hne; rfl)
  · intro hpu0
    constructor
    · simp [clientLines, clientConnections, hpu0]
    · cases hb : opts.noVerifyCA <;>
        simp [clientLines, clientConnections, strconvFormatBool, hb, hpu0] <;>
      repeat' apply And.intro
      all_goals first | rfl | (intro _hne; rfl)

/-- C2: the secret is created with exactly the keys tls.crt and tls.key
holding the transport's certificate and key bytes; a create failure that
the cluster reports as already-exists yields nil without any Update call
(the existing secret is left untouched), success yields nil, and any
other create error is returned unchanged. -/
theorem createClientSecret_policy (c : ClusterClient) (s : StunnelTransport)
    (pfx : String) (e : Endpoint) :
    (stunnelSecret s pfx e).data = [("tls.crt", s.crt), ("tls.key", s.key)] ∧
    (createClientSecret c s pfx e).2 = [.create (.secret (stunnelSecret s pfx e))] ∧
    (c.createResp (.secret (stunnelSecret s pfx e)) = none →
      (createClientSecret c s pfx e).1 = none) ∧
    (∀ err, c.createResp (.secret (stunnelSecret s pfx e)) = some err →
      isAlreadyExists err = true → (createClientSecret c s pfx e).1 = none) ∧
    (∀ err, c.createResp (.secret (stunnelSecret s pfx e)) = some err →
      isAlreadyExists err = false → (createClientSecret c s pfx e).1 = some err) := by
  refine ⟨rfl, ?_, fun h0 => ?_, fun err herr ha => ?_, fun err herr ha => ?_⟩
  · cases h : c.createResp (.secret (stunnelSecret s pfx e)) with
    | none => simp [createClientSecret, h]
    | some err => cases ha : isAlreadyExists err <;> simp [createClientSecret, h, ha]
  · simp [createClientSecret, h0]
  · simp [createClientSecret, herr, ha]
  · simp [createClientSecret, herr, ha]

/-- C3: the config object carries the prefixed default name and the sole
key stunnel.conf with the rendered text; Create is attempted first, and an
Update with the same newly rendered object happens exactly when Create
fails as already-exists; any other create error and any update error is
returned unchanged, and both the create path and the update path yield nil
on success. -/
theorem createClientConfig_policy (c : ClusterClient) (s : StunnelTransport)
    (pfx : String) (e : Endpoint) :
    (stunnelConfigMap s pfx e).name = withPfx pfx defaultStunnelClientConfig ∧
    (stunnelConfigMap s pfx e).data = [("stunnel.conf", renderClientConf s.options e)] ∧
    (c.createResp (.configMap (stunnelConfigMap s pfx e)) = none →
      createClientConfig c s pfx e =
        (none, [.create (.configMap (stunnelConfigMap s pfx e))])) ∧
    (∀ err, c.createResp (.configMap (stunnelConfigMap s pfx e)) = some err →
      isAlreadyExists err = true →
        (createClientConfig c s pfx e).1 =
          c.updateResp (.configMap (stunnelConfigMap s pfx e)) ∧
        (createClientConfig c s pfx e).2 =
          [.create (.configMap (stunnelConfigMap s pfx e)),
           .update (.configMap (stunnelConfigMap s pfx e))]) ∧
    (∀ err, c.createResp (.configMap (stunnelConfigMap s pfx e)) = some err →
      isAlreadyExists err = false →
        createClientConfig c s pfx e =
          (some err, [.create (.configMap (stunnelConfigMap s pfx e))])) ∧
    ((∃ o, ClusterCall.update o ∈ (createClientConfig c s pfx e).2) ↔
      (∃ err, c.createResp (.configMap (stunnelConfigMap s pfx e)) = some err ∧
        isAlreadyExists err = true)) := by
  refine ⟨rfl, rfl, fun h0 => ?_, fun err herr ha => ?_, fun err herr ha => ?_, ?_⟩
  · simp [createClientConfig, h0]
  · cases hu : c.updateResp (.configMap (stunnelConfigMap s pfx e)) <;>
      simp [createClientConfig, herr, ha, hu]
  · simp [createClientConfig, herr, ha]
  · cases h : c.createResp (.configMap (stunnelConfigMap s pfx e)) with
    | none => simp [createClientConfig, h]
    | some err =>
      cases ha : isAlreadyExists err with
      | true =>
        cases hu : c.updateResp (.configMap (stunnelConfigMap s pfx e)) <;>
          simp [createClientConfig, h, ha, hu]
      | false => simp [createClientConfig, h, ha]

theorem createClientConfig_has_create (c : ClusterClient) (s : StunnelTransport)
    (pfx : String) (e : Endpoint) :
    ClusterCall.create (.configMap (stunnelConfigMap s pfx e)) ∈
      (createClientConfig c s pfx e).2 := by
  cases h : c.createResp (.configMap (stunnelConfigMap s pfx e)) with
  | none => simp [createClientConfig, h]
  | some err =>
    cases ha : isAlreadyExists err with
    | true =>
      cases hu : c.updateResp (.configMap (stunnelConfigMap s pfx e)) <;>
        simp [createClientConfig, h, ha, hu]
    | false => simp [createClientConfig, h, ha]

theorem createClientSecret_has_create (c : ClusterClient) (s : StunnelTransport)
    (pfx : String) (e : Endpoint) :
    ClusterCall.create (.secret (stunnelSecret s pfx e)) ∈
      (createClientSecret c s pfx e).2 := by
  cases h : c.createResp (.secret (stunnelSecret s pfx e)) with
  | none => simp [createClientSecret, h]
  | some err => cases ha : isAlreadyExists err <;> simp [createClientSecret, h, ha]

/-- C4: the config step and the secret step both execute regardless of the
other's outcome (both create calls appear in the trace unconditionally),
and the returned aggregate is nil exactly when both steps succeeded,
otherwise it carries every failure that occurred. -/
theorem createClientResources_aggregation (c : ClusterClient) (s : StunnelTransport)
    (pfx : String) (e : Endpoint) :
    (CreateClient c s pfx e).2.2 =
      (createClientConfig c s pfx e).2 ++ (createClientSecret c s pfx e).2 ∧
    ClusterCall.create (.configMap (stunnelConfigMap s pfx e)) ∈
      (CreateClient c s pfx e).2.2 ∧
    ClusterCall.create (.secret (stunnelSecret s pfx e)) ∈
      (CreateClient c s pfx e).2.2 ∧
    ((CreateClient c s pfx e).2.1 = none ↔
      (createClientConfig c s pfx e).1 = none ∧ (createClientSecret c s pfx e).1 = none) ∧
    (∀ l, (CreateClient c s pfx e).2.1 = some l →
      l = [(createClientConfig c s pfx e).1,
           (createClientSecret c s pfx e).1].filterMap id) := by
  refine ⟨rfl, ?_, ?_, ?_, ?_⟩
  · exact List.mem_append_left _ (createClientConfig_has_create c s pfx e)
  · exact List.mem_append_right _ (createClientSecret_has_create c s pfx e)
  · show newAggregate [(createClientConfig c s pfx e).1, (createClientSecret c s pfx e).1] =
        none ↔ _
    cases h1 : (createClientConfig c s pfx e).1 <;>
      cases h2 : (createClientSecret c s pfx e).1 <;> simp [newAggregate]
  · intro l hl
    replace hl : newAggregate [(createClientConfig c s pfx e).1,
        (createClientSecret c s pfx e).1] = some l := hl
    cases h1 : (createClientConfig c s pfx e).1 <;>
      cases h2 : (createClientSecret c s pfx e).1 <;>
        rw [h1, h2] at hl <;> simp [newAggregate] at hl <;> simp [hl]

/-- C9: CreateClient derives exactly one client container descriptor with
the fixed name, the transport's client image, the stunnel launch command,
a single TCP port equal to the endpoint port, the config object mounted as
the single file stunnel.conf and the secret mounted at the certs
directory; and exactly two volume descriptors, one backed by the prefixed
config object and one backed by the prefixed secret restricted to exactly
the tls.crt and tls.key key/path entries. -/
theorem stunnel_client_container_volume_derivation (c : ClusterClient)
    (s : StunnelTransport) (pfx : String) (e : Endpoint) :
    ((CreateClient c s pfx e).1.clientContainers.length = 1 ∧
     ∀ ct ∈ (CreateClient c s pfx e).1.clientContainers,
       ct.name = stunnelContainerName ∧
       ct.image = s.stunnelClientImage ∧
       ct.command = ["/bin/stunnel", "/etc/stunnel/stunnel.conf"] ∧
       ct.ports = [{ name := "stunnel", protocol := "TCP", containerPort := e.port }] ∧
       ct.volumeMounts = [
         { name := defaultStunnelClientConfig
           mountPath := "/etc/stunnel/stunnel.conf"
           subPath := "stunnel.conf" },
         { name := defaultStunnelClientSecret
           mountPath := "/etc/stunnel/certs"
           subPath := "" }]) ∧
    ((CreateClient c s pfx e).1.clientVolumes.length = 2 ∧
     (CreateClient c s pfx e).1.clientVolumes = [
       { name := defaultStunnelClientConfig
         volumeSource :=
           { configMap := some { name := withPfx pfx defaultStunnelClientConfig }
             secret := none } },
       { name := defaultStunnelClientSecret
         volumeSource :=
           { configMap := none
             secret := some
               { secretName := withPfx pfx defaultStunnelClientSecret
                 items := [
                   { keyName := "tls.crt", path := "tls.crt" },
                   { keyName := "tls.key", path := "tls.key" }] } } }]) := by
  refine ⟨⟨rfl, ?_⟩, rfl, rfl⟩
  intro ct hct
  have hl : (CreateClient c s pfx e).1.clientContainers = [clientContainer s e] := rfl
  rw [hl] at hct
  have hco : ct = clientContainer s e := by simpa using hct
  subst hco
  exact ⟨rfl, rfl, rfl, rfl, rfl⟩

/-- C10: CreateClient assigns the derived container and volume specs to
the transport unconditionally: the assignment happens for every cluster
client, also for one whose create or update calls fail, so it is not
atomic with respect to the returned error. -/
theorem createClient_sets_specs_unconditionally (c : ClusterClient)
    (s : StunnelTransport) (pfx : String) (e : Endpoint) :
    (CreateClient c s pfx e).1.clientContainers = [clientContainer s e] ∧
    (CreateClient c s pfx e).1.clientVolumes = clientVolumeSpecs pfx := by
  exact ⟨rfl, rfl⟩

/-- C6: the connection hostname and port are the endpoint hostname and
exposed port for a direct transport, and localhost with the transport
port for a tunneled transport. -/
theorem connection_address_derivation (t : Transfer) :
    (t.transport.direct = true →
      ConnectionHostname t = t.endpoint.hostname ∧
      ConnectionPort t = t.endpoint.exposedPort) ∧
    (t.transport.direct = false →
      ConnectionHostname t = "localhost" ∧
      ConnectionPort t = t.transport.port) := by
  constructor <;> intro h <;> simp [ConnectionHostname, ConnectionPort, h]

/-- Whether the character list `p` occurs contiguously inside `l`. -/
def hasSub : List Char → List Char → Bool
  | p, [] => p.isEmpty
  | p, c :: t => p.isPrefixOf (c :: t) || hasSub p t

/-- Whether the string `sub` occurs contiguously inside `s`. -/
def strContains (s sub : String) : Bool := hasSub sub.data s.data

theorem isPrefixOf_self_append (p b : List Char) : p.isPrefixOf (p ++ b) = true := by
  induction p with
  | nil => simp [List.isPrefixOf]
  | cons a as ih => simp [List.isPrefixOf, ih]

theorem hasSub_append_left (p a b : List Char) (h : hasSub p b = true) :
    hasSub p (a ++ b) = true := by
  induction a with
  | nil => simpa using h
  | cons c t ih => simp [hasSub, ih]

theorem hasSub_self_append (p b : List Char) : hasSub p (p ++ b) = true := by
  cases p with
  | nil =>
    cases b with
    | nil => rfl
    | cons c t => simp [hasSub, List.isPrefixOf]
  | cons x xs => simp [hasSub, isPrefixOf_self_append]

theorem strContains_mid (a mid b : String) : strContains (a ++ (mid ++ b)) mid = true := by
  unfold strContains
  rw [String.data_append, String.data_append]
  exact hasSub_append_left _ _ _ (hasSub_self_append _ _)


/-- C7: a pod is ready with no error exactly when it reports two container
statuses that are all ready; any other status count yields not-ready with
an error mentioning the found count; two statuses with a not-ready one
yield not-ready with an error naming a not-ready container. -/
theorem areContainersReady_spec (p : Pod) :
    (areContainersReady p = (true, none) ↔
      p.containerStatuses.length = 2 ∧ ∀ cs ∈ p.containerStatuses, cs.ready = true) ∧
    (p.containerStatuses.length ≠ 2 →
      ∃ msg, areContainersReady p = (false, some msg) ∧
        strContains msg (Nat.repr p.containerStatuses.length) = true) ∧
    (p.containerStatuses.length = 2 →
      ∀ cs0 ∈ p.containerStatuses, cs0.ready = false →
        ∃ cs msg, cs ∈ p.containerStatuses ∧ cs.ready = false ∧
          areContainersReady p = (false, some msg) ∧ strContains msg cs.name = true) := by
  refine ⟨?_, fun hlen => ?_, fun hlen cs0 hmem hnr => ?_⟩
  · by_cases hlen : p.containerStatuses.length = 2
    · cases hf : p.containerStatuses.find? (fun cs => !cs.ready) with
      | none =>
        constructor
        · intro _
          refine ⟨hlen, fun cs hcs => ?_⟩
          have := List.find?_eq_none.mp hf cs hcs
          simpa using this
        · intro _
          simp [areContainersReady, hlen, hf]
      | some cs =>
        have hread : cs.ready = false := by
          have := List.find?_some hf
          simpa using this
        constructor
        · intro hco
          have hne : areContainersReady p ≠ (true, none) := by
            simp [areContainersReady, hlen, hf]
          exact absurd hco hne
        · rintro ⟨_, hall⟩
          have hr := hall cs (List.mem_of_find?_eq_some hf)
          rw [hread] at hr
          exact Bool.noConfusion hr
    · constructor
      · intro hco
        have hne : areContainersReady p ≠ (true, none) := by
          simp [areContainersReady, hlen]
        exact absurd hco hne
      · rintro ⟨h2, _⟩
        exact absurd h2 hlen
  · refine ⟨"expected two container statuses found " ++
      (Nat.repr p.containerStatuses.length ++ (", for pod " ++ objectKeyString p.ns p.name)),
      by simp [areContainersReady, hlen], ?_⟩
    exact strContains_mid "expected two container statuses found "
      (Nat.repr p.containerStatuses.length)
      (", for pod " ++ objectKeyString p.ns p.name)
  · have hexists : ∃ cs ∈ p.containerStatuses, (fun cs => !cs.ready) cs = true :=
      ⟨cs0, hmem, by simp [hnr]⟩
    have hsome : (p.containerStatuses.find? (fun cs => !cs.ready)).isSome := by
      rw [List.find?_isSome]
      exact hexists
    obtain ⟨cs, hf⟩ := Option.isSome_iff_exists.mp hsome
    have hread : cs.ready = false := by
      have := List.find?_some hf
      simpa using this
    refine ⟨cs,
      "container " ++ (cs.name ++ (" in pod " ++ (objectKeyString p.ns p.name ++ " is not ready"))),
      List.mem_of_find?_eq_some hf, hread,
      by simp [areContainersReady, hlen, hf], ?_⟩
    exact strContains_mid "container " cs.name
      (" in pod " ++ (objectKeyString p.ns p.name ++ " is not ready"))

theorem areContainersReady_unhealthy_some (p : Pod) (h : podHealthy p = false) :
    ∃ m, (areContainersReady p).2 = some m := by
  by_cases hlen : p.containerStatuses.length = 2
  · cases hf : p.containerStatuses.find? (fun cs => !cs.ready) with
    | none =>
      exfalso
      have ht : podHealthy p = true := by simp [podHealthy, areContainersReady, hlen, hf]
      rw [ht] at h
      exact Bool.noConfusion h
    | some cs =>
      exact ⟨"container " ++ (cs.name ++ (" in pod " ++
          (objectKeyString p.ns p.name ++ " is not ready"))),
        by simp [areContainersReady, hlen, hf]⟩
  · exact ⟨"expected two container statuses found " ++
      (Nat.repr p.containerStatuses.length ++ (", for pod " ++ objectKeyString p.ns p.name)),
      by simp [areContainersReady, hlen]⟩

theorem checkPods_all_unhealthy :
    ∀ (pods : List Pod) (errs : List String), (∀ q ∈ pods, podHealthy q = false) →
      checkPods pods errs = (false,
        if (errs ++ pods.filterMap (fun q => (areContainersReady q).2)).isEmpty then none
        else some (errs ++ pods.filterMap (fun q => (areContainersReady q).2))) := by
  intro pods
  induction pods with
  | nil =>
    intro errs _
    simp [checkPods]
  | cons p rest ih =>
    intro errs h
    have hp : podHealthy p = false := h p (List.mem_cons_self p rest)
    have hp1 : (areContainersReady p).1 = false := hp
    obtain ⟨m, hm⟩ := areContainersReady_unhealthy_some p hp
    have hrest : ∀ q ∈ rest, podHealthy q = false :=
      fun q hq => h q (List.mem_cons_of_mem p hq)
    have step : checkPods (p :: rest) errs = checkPods rest (errs ++ [m]) := by
      simp [checkPods, hm, hp1]
    rw [step, ih (errs ++ [m]) hrest]
    simp [List.filterMap_cons, hm, List.append_assoc]

theorem checkPods_first_healthy :
    ∀ (pre : List Pod) (p : Pod) (post : List Pod) (errs : List String),
      (∀ q ∈ pre, podHealthy q = false) → podHealthy p = true →
        checkPods (pre ++ p :: post) errs = (true, none) := by
  intro pre
  induction pre with
  | nil =>
    intro p post errs _ hp
    have hp1 : (areContainersReady p).1 = true := hp
    simp [checkPods, hp1]
  | cons q rest ih =>
    intro p post errs hpre hp
    have hq : podHealthy q = false := hpre q (List.mem_cons_self q rest)
    have hq1 : (areContainersReady q).1 = false := hq
    have hrest : ∀ x ∈ rest, podHealthy x = false :=
      fun x hx => hpre x (List.mem_cons_of_mem q hx)
    have step : checkPods ((q :: rest) ++ p :: post) errs =
        checkPods (rest ++ p :: post) (match (areContainersReady q).2 with
          | some msg => errs ++ [msg]
          | none => errs) := by
      simp [checkPods, hq1]
    rw [step]
    exact ih p post _ hrest hp

/-- C8: over a listed set of pods, the first ready pod makes the check
return true with no error regardless of the remaining pods; if no pod is
ready the result is false with the aggregate of every listed pod's error;
and an empty list yields false with no error. -/
theorem areFilteredPodsHealthy_spec :
    (∀ (pre : List Pod) (p : Pod) (post : List Pod),
      (∀ q ∈ pre, podHealthy q = false) → podHealthy p = true →
        AreFilteredPodsHealthy (pre ++ p :: post) = (true, none)) ∧
    (∀ pods : List Pod, (∀ q ∈ pods, podHealthy q = false) → pods ≠ [] →
      AreFilteredPodsHealthy pods =
        (false, some (pods.filterMap (fun q => (areContainersReady q).2)))) ∧
    AreFilteredPodsHealthy ([] : List Pod) = (false, none) := by
  refine ⟨fun pre p post hpre hp => checkPods_first_healthy pre p post [] hpre hp,
    fun pods h hne => ?_, rfl⟩
  rw [AreFilteredPodsHealthy, checkPods_all_unhealthy pods [] h]
  cases pods with
  | nil => exact absurd rfl hne
  | cons p rest =>
    have hp : podHealthy p = false := h p (List.mem_cons_self p rest)
    obtain ⟨m, hm⟩ := areContainersReady_unhealthy_some p hp
    simp [List.filterMap_cons, hm]

/-- Fixture options with a configured proxy, used by witnesses. -/
def wOpts : TransportOptions :=
  { caVerifyLevel := "", proxyURL := "http://proxy:3128", proxyUsername := "user",
    proxyPassword := "pass", noVerifyCA := false }

/-- Fixture endpoint used by witnesses. -/
def wEndpoint : Endpoint :=
  { hostname := "target.example.com", port := 1234, exposedPort := 443,
    labels := [("app", "crane")] }

/-- Fixture transport used by witnesses. -/
def wTransport : StunnelTransport :=
  { crt := [99], key := [107], sourceNamespace := "src-ns", options := wOpts,
    stunnelClientImage := "quay.io/example/stunnel", clientContainers := [],
    clientVolumes := [] }

/-- Fixture client whose calls all succeed. -/
def wClientOk : ClusterClient :=
  { createResp := fun _ => none, updateResp := fun _ => none }

/-- Fixture client whose creates report already-exists. -/
def wClientExists : ClusterClient :=
  { createResp := fun _ => some (.alreadyExists "exists"), updateResp := fun _ => none }

/-- Fixture client whose creates fail with a generic error. -/
def wClientFail : ClusterClient :=
  { createResp := fun _ => some (.other "boom"), updateResp := fun _ => none }

theorem createClientSecret_policy_witness :
    (createClientSecret wClientExists wTransport "p" wEndpoint).1 = none :=
  (createClientSecret_policy wClientExists wTransport "p" wEndpoint).2.2.2.1
    (K8sErr.alreadyExists "exists") rfl rfl

theorem createClientConfig_policy_witness :
    createClientConfig wClientFail wTransport "p" wEndpoint =
      (some (K8sErr.other "boom"),
       [.create (.configMap (stunnelConfigMap wTransport "p" wEndpoint))]) :=
  (createClientConfig_policy wClientFail wTransport "p" wEndpoint).2.2.2.2.1
    (K8sErr.other "boom") rfl rfl

theorem createClientResources_aggregation_witness :
    [K8sErr.other "boom", K8sErr.other "boom"] =
      [(createClientConfig wClientFail wTransport "p" wEndpoint).1,
       (createClientSecret wClientFail wTransport "p" wEndpoint).1].filterMap id :=
  (createClientResources_aggregation wClientFail wTransport "p" wEndpoint).2.2.2.2
    [K8sErr.other "boom", K8sErr.other "boom"] rfl

theorem stunnel_client_proxy_rendering_witness :
    " protocol = connect" ∈ linesOf (renderClientConf wOpts wEndpoint) :=
  ((stunnel_client_proxy_rendering wOpts wEndpoint (by decide) (by decide) (by decide)
    (by decide) (by decide)).1 (by decide)).1

/-- Fixture transfer over a tunneled transport. -/
def wTransfer : Transfer :=
  { transport := { direct := false, port := 9000 }, endpoint := wEndpoint }

theorem connection_address_derivation_witness :
    ConnectionHostname wTransfer = "localhost" ∧ ConnectionPort wTransfer = 9000 :=
  (connection_address_derivation wTransfer).2 rfl

/-- Fixture pod with one ready and one not-ready container. -/
def wPod : Pod :=
  { ns := "ns", name := "pod",
    containerStatuses := [{ name := "stunnel", ready := true },
                          { name := "rsync", ready := false }] }

/-- Fixture pod with two ready containers. -/
def wPodReady : Pod :=
  { ns := "ns", name := "ok",
    containerStatuses := [{ name := "a", ready := true }, { name := "b", ready := true }] }

theorem areContainersReady_spec_witness :
    ∃ cs msg, cs ∈ wPod.containerStatuses ∧ cs.ready = false ∧
      areContainersReady wPod = (false, some msg) ∧ strContains msg cs.name = true :=
  (areContainersReady_spec wPod).2.2 rfl { name := "rsync", ready := false }
    (by decide) rfl

theorem areFilteredPodsHealthy_spec_witness :
    AreFilteredPodsHealthy ([wPod] ++ wPodReady :: []) = (true, none) :=
  areFilteredPodsHealthy_spec.1 [wPod] wPodReady [] (by decide) (by decide)

theorem stunnel_client_container_volume_derivation_witness :
    (clientContainer wTransport wEndpoint).name = stunnelContainerName :=
  ((stunnel_client_container_volume_derivation wClientOk wTransport "p" wEndpoint).1.2
    (clientContainer wTransport wEndpoint) (List.mem_singleton_self _)).1
